import Mathlib

/-!
Shallow embedding of the SearchAutos core (src/src/services/marketcheck.ts,
src/src/types.ts, src/src/config.ts): search-criteria-to-query translation,
response normalization and client-side sorting.

JavaScript conventions modelled explicitly:
  - optional / possibly-undefined fields become `Option`;
  - the nullish-coalescing operator `??` becomes `Option.orElse` (`<|>`);
  - JavaScript truthiness tests on numbers and strings (`if (x)`,
    `filter(Boolean)`, `x || y`) test against `0` and `""` explicitly;
  - machine numbers appearing in the claims are integers and are modelled
    as `Int`;
  - `URLSearchParams` is an ordered key/value list whose `set` replaces the
    first binding of the key and drops any later duplicates;
  - `Array.prototype.sort` with a consistent comparator is modelled as a
    stable insertion sort by the relation `comparator a b ≤ 0`;
  - the per-call results of `cryptoRandomId` are supplied as explicit
    string arguments, making the non-determinism an input.
-/

/-- The four sort options of `types.ts` (`SortOption`). -/
inductive SortOption where
  | priceAsc
  | priceDesc
  | distance
  | mileageAsc
deriving DecidableEq

/-- The `'asc' | 'desc'` direction literals of `marketcheck.ts`. -/
inductive SortDirection where
  | asc
  | desc
deriving DecidableEq

/-- `SortConfig` of `marketcheck.ts`: a remote sort field together with an
optional remote sort direction. -/
structure SortConfig where
  sortBy : String
  sortOrder : Option SortDirection := none
deriving DecidableEq

/-- `SelectedLocation` of `types.ts`. Latitude and longitude are modelled as
integers. -/
structure SelectedLocation where
  description : String := ""
  city : String := ""
  state : String := ""
  lat : Int := 0
  lng : Int := 0
deriving DecidableEq

/-- `SearchCriteria` of `types.ts`: every optional field is an `Option`. -/
structure SearchCriteria where
  location : SelectedLocation
  radius : Int
  make : Option String := none
  model : Option String := none
  color : Option String := none
  minYear : Option Int := none
  maxYear : Option Int := none
  minMiles : Option Int := none
  maxMiles : Option Int := none
  minPrice : Option Int := none
  maxPrice : Option Int := none
  sortBy : SortOption
deriving DecidableEq

/-- The configuration surface of `config.ts` consumed by the query builder:
API key, base URL and page size (`resultsPerPage`). -/
structure AppConfig where
  marketcheckApiKey : String
  marketcheckBaseUrl : String := "https://api.marketcheck.com/v2"
  resultsPerPage : Int := 24
deriving DecidableEq

/-- `DEFAULT_MARKETCHECK_BASE` of `config.ts`. -/
def DEFAULT_MARKETCHECK_BASE : String := "https://api.marketcheck.com/v2"

/-- The default page size of `config.ts`: `Number.parseInt('24', 10)`. -/
def defaultResultsPerPage : Int := 24

/-- JavaScript truthiness of a possibly-undefined string: `undefined` and
`""` are falsy, every other string is truthy. -/
def truthyStr : Option String → Bool
  | none => false
  | some s => s != ""

/-- JavaScript truthiness of a possibly-undefined number: `undefined` and
`0` are falsy, every other number is truthy. -/
def truthyNum : Option Int → Bool
  | none => false
  | some n => n != 0

/-- The string a possibly-undefined number contributes to a template literal
after `?? dflt`: its decimal rendering if defined, otherwise `dflt`. -/
def numStrOr (o : Option Int) (dflt : String) : String :=
  match o with
  | some n => toString n
  | none => dflt

/-- Removes every binding of key `k` from a parameter list. -/
def deleteKey : List (String × String) → String → List (String × String)
  | [], _ => []
  | p :: rest, k => if p.1 = k then deleteKey rest k else p :: deleteKey rest k

/-- `URLSearchParams.set`: replaces the first binding of the key in place and
drops any later duplicate bindings; appends when the key is absent. -/
def setParam : List (String × String) → String → String → List (String × String)
  | [], k, v => [(k, v)]
  | p :: rest, k, v =>
      if p.1 = k then (k, v) :: deleteKey rest k else p :: setParam rest k v

/-- `URLSearchParams.get`: the value of the first binding of the key. -/
def getParam (ps : List (String × String)) (k : String) : Option String :=
  (ps.find? (fun p => p.1 == k)).map Prod.snd

/-- `SORT_MAPPING` of `marketcheck.ts`. -/
def SORT_MAPPING : SortOption → SortConfig
  | .priceAsc => { sortBy := "price", sortOrder := some .asc }
  | .priceDesc => { sortBy := "price", sortOrder := some .desc }
  | .distance => { sortBy := "distance", sortOrder := some .asc }
  | .mileageAsc => { sortBy := "miles", sortOrder := some .asc }

/-- The query-string rendering of a sort direction. -/
def sortDirectionParam : SortDirection → String
  | .asc => "asc"
  | .desc => "desc"

/-- The final step of the query construction: `sort_order` is set exactly
when the sort configuration carries a direction. -/
def setSortOrderParam (ps : List (String × String)) (o : Option SortDirection) :
    List (String × String) :=
  match o with
  | some d => setParam ps "sort_order" (sortDirectionParam d)
  | none => ps

/-- The query-parameter construction of `searchVehicles` (`marketcheck.ts`):
the sequence of `searchParams.set` calls performed on the fresh URL, in
source order, including the truthiness-guarded optional filters, the
default-filled range parameters and the sort mapping. -/
def buildQuery (cfg : AppConfig) (c : SearchCriteria) : List (String × String) :=
  let ps : List (String × String) := []
  let ps := setParam ps "api_key" cfg.marketcheckApiKey
  let ps := setParam ps "latitude" (toString c.location.lat)
  let ps := setParam ps "longitude" (toString c.location.lng)
  let ps := setParam ps "radius" (toString c.radius)
  let ps := setParam ps "car_type" "used"
  let ps := setParam ps "start" "0"
  let ps := setParam ps "rows" (toString (max 1 (min cfg.resultsPerPage 50)))
  let ps := if truthyStr c.make then setParam ps "make" (c.make.getD "") else ps
  let ps := if truthyStr c.model then setParam ps "model" (c.model.getD "") else ps
  let ps := if truthyStr c.color then setParam ps "exterior_color" (c.color.getD "") else ps
  let ps :=
    if truthyNum c.minYear || truthyNum c.maxYear then
      setParam ps "year_range" (numStrOr c.minYear "2000" ++ "-" ++ numStrOr c.maxYear "2030")
    else ps
  let ps :=
    if truthyNum c.minMiles || truthyNum c.maxMiles then
      setParam ps "miles_range" (numStrOr c.minMiles "0" ++ "-" ++ numStrOr c.maxMiles "1000")
    else ps
  let ps :=
    if truthyNum c.minPrice || truthyNum c.maxPrice then
      setParam ps "price_range" (numStrOr c.minPrice "0" ++ "-" ++ numStrOr c.maxPrice "100000")
    else ps
  let sc := SORT_MAPPING c.sortBy
  let ps := setParam ps "sort_by" sc.sortBy
  setSortOrderParam ps sc.sortOrder

/-- The nested `media` object of `MarketcheckListing`. -/
structure MediaInfo where
  photo_links : Option (List String) := none
deriving DecidableEq

/-- The nested `dealer` object of `MarketcheckListing`. -/
structure DealerInfo where
  name : Option String := none
  city : Option String := none
  state : Option String := none
  phone : Option String := none
  website : Option String := none
deriving DecidableEq

/-- The nested `build` object of `MarketcheckListing`. -/
structure BuildInfo where
  year : Option Int := none
  make : Option String := none
  model : Option String := none
  trim : Option String := none
  body_type : Option String := none
  transmission : Option String := none
  drivetrain : Option String := none
  fuel_type : Option String := none
deriving DecidableEq

/-- `MarketcheckListing` of `marketcheck.ts`: the raw upstream record with
every field optional. -/
structure MarketcheckListing where
  id : Option String := none
  vin : Option String := none
  heading : Option String := none
  price : Option Int := none
  miles : Option Int := none
  mileage : Option Int := none
  dist : Option Int := none
  distance : Option Int := none
  exterior_color : Option String := none
  interior_color : Option String := none
  media : Option MediaInfo := none
  dealer : Option DealerInfo := none
  build : Option BuildInfo := none
  vdp_url : Option String := none
  ref_price : Option Int := none
  scraped_listing_url : Option String := none
  website : Option String := none
deriving DecidableEq

/-- `VehicleListing` of `types.ts`: the canonical display model. -/
structure VehicleListing where
  id : String
  title : String
  price : Option Int := none
  mileage : Option Int := none
  distance : Option Int := none
  exteriorColor : Option String := none
  interiorColor : Option String := none
  year : Option Int := none
  make : Option String := none
  model : Option String := none
  trim : Option String := none
  bodyType : Option String := none
  transmission : Option String := none
  drivetrain : Option String := none
  fuelType : Option String := none
  dealerName : Option String := none
  dealerCity : Option String := none
  dealerState : Option String := none
  dealerPhone : Option String := none
  dealerWebsite : Option String := none
  listingUrl : Option String := none
  imageUrl : Option String := none
deriving DecidableEq

/-- JavaScript `String.prototype.trim`: strips leading and trailing
whitespace, modelled structurally on the character list. -/
def jsTrim (s : String) : String :=
  ⟨((s.data.dropWhile Char.isWhitespace).reverse.dropWhile Char.isWhitespace).reverse⟩

/-- What a possibly-undefined number contributes to
`[...].filter(Boolean).join(' ')`: nothing when undefined or `0` (falsy),
its decimal rendering otherwise. -/
def jsFilterBooleanNum : Option Int → List String
  | none => []
  | some n => if n = 0 then [] else [toString n]

/-- What a possibly-undefined string contributes to
`[...].filter(Boolean).join(' ')`: nothing when undefined or empty (falsy),
the string itself otherwise. -/
def jsFilterBooleanStr : Option String → List String
  | none => []
  | some s => if s = "" then [] else [s]

/-- `[build.year, build.make, build.model, build.trim].filter(Boolean)`. -/
def buildTitleParts (b : BuildInfo) : List String :=
  jsFilterBooleanNum b.year ++ jsFilterBooleanStr b.make ++
    jsFilterBooleanStr b.model ++ jsFilterBooleanStr b.trim

/-- The `heading`-fallback title expression of `normalizeListing`:
`listing.heading ?? [parts].filter(Boolean).join(' ').trim()`. -/
def computedTitle (listing : MarketcheckListing) : String :=
  match listing.heading with
  | some h => h
  | none => jsTrim (String.intercalate " " (buildTitleParts (listing.build.getD {})))

/-- `normalizeListing` of `marketcheck.ts`. The result of the one potential
`cryptoRandomId()` call is passed in as `rid`. -/
def normalizeListing (listing : MarketcheckListing) (rid : String) : VehicleListing :=
  let build := listing.build.getD {}
  let dealer := listing.dealer.getD {}
  let theId := ((listing.id).orElse fun _ => listing.vin).getD rid
  let t := computedTitle listing
  { id := theId
    title := if t = "" then "Used Vehicle" else t
    price := (listing.price).orElse fun _ => listing.ref_price
    mileage := (listing.miles).orElse fun _ => listing.mileage
    distance := (listing.dist).orElse fun _ => listing.distance
    exteriorColor := listing.exterior_color
    interiorColor := listing.interior_color
    year := build.year
    make := build.make
    model := build.model
    trim := build.trim
    bodyType := build.body_type
    transmission := build.transmission
    drivetrain := build.drivetrain
    fuelType := build.fuel_type
    dealerName := dealer.name
    dealerCity := dealer.city
    dealerState := dealer.state
    dealerPhone := dealer.phone
    dealerWebsite := ((dealer.website).orElse fun _ => listing.website).orElse
      fun _ => listing.scraped_listing_url
    listingUrl := ((listing.vdp_url).orElse fun _ => listing.scraped_listing_url).orElse
      fun _ => dealer.website
    imageUrl := (listing.media.bind MediaInfo.photo_links).bind List.head? }

/-- `compareWithMissing` of `marketcheck.ts`: the comparator on two
possibly-missing numeric keys for a given direction. -/
def compareWithMissing (aValue bValue : Option Int) (direction : SortDirection) : Int :=
  match aValue, bValue with
  | none, none => 0
  | none, some _ => if direction = .asc then 1 else -1
  | some _, none => if direction = .asc then -1 else 1
  | some a, some b => if direction = .asc then a - b else b - a

/-- The `comparators` record of `marketcheck.ts`: one comparator per sort
option, each delegating to `compareWithMissing` on the relevant field. -/
def comparators (sortBy : SortOption) (a b : VehicleListing) : Int :=
  match sortBy with
  | .priceAsc => compareWithMissing a.price b.price .asc
  | .priceDesc => compareWithMissing a.price b.price .desc
  | .distance => compareWithMissing a.distance b.distance .asc
  | .mileageAsc => compareWithMissing a.mileage b.mileage .asc

/-- The ordering relation induced by a comparator, as used by
`Array.prototype.sort`: `a` may precede `b` when the comparator is ≤ 0. -/
def sortLE (sortBy : SortOption) (a b : VehicleListing) : Prop :=
  comparators sortBy a b ≤ 0

instance (s : SortOption) : DecidableRel (sortLE s) :=
  fun _ _ => Int.decLe _ _

/-- `sortListings` of `marketcheck.ts`: copies the list and sorts it with
the comparator for the sort option. `Array.prototype.sort` (stable, with a
consistent comparator) is modelled as a stable insertion sort by `sortLE`. -/
def sortListings (listings : List VehicleListing) (sortBy : SortOption) : List VehicleListing :=
  List.insertionSort (sortLE sortBy) listings

/-- A parsed JavaScript value, as produced by `response.json()`. -/
inductive JsValue where
  | jnull
  | jbool (b : Bool)
  | jnum (n : Int)
  | jstr (s : String)
  | jarr (elems : List JsValue)
  | jobj (fields : List (String × JsValue))

/-- `typeof body === 'object'`: true for `null`, arrays and objects. -/
def typeofIsObject : JsValue → Bool
  | .jnull => true
  | .jarr _ => true
  | .jobj _ => true
  | _ => false

/-- JavaScript truthiness of a parsed value (`body &&`). -/
def jsTruthy : JsValue → Bool
  | .jnull => false
  | .jbool b => b
  | .jnum n => n != 0
  | .jstr s => s != ""
  | .jarr _ => true
  | .jobj _ => true

/-- The `in` operator restricted to string keys: only objects can carry a
named property here. -/
def jsHasKey (k : String) : JsValue → Bool
  | .jobj fields => fields.any fun p => p.1 == k
  | _ => false

/-- Property access `body[k]` on a parsed object. -/
def jsGetKey (k : String) : JsValue → JsValue
  | .jobj fields => ((fields.find? fun p => p.1 == k).map Prod.snd).getD .jnull
  | _ => .jnull

mutual

/-- `String(x)` on a parsed value: `null` prints as "null", booleans and
numbers render themselves, arrays join their elements with commas (with
`null` elements contributing the empty string), objects print as the
standard object tag. -/
def jsToString : JsValue → String
  | .jnull => "null"
  | .jbool b => if b then "true" else "false"
  | .jnum n => toString n
  | .jstr s => s
  | .jarr elems => String.intercalate "," (jsArrStrings elems)
  | .jobj _ => "[object Object]"

/-- Element strings of `Array.prototype.join`: `null` entries contribute the
empty string. -/
def jsArrStrings : List JsValue → List String
  | [] => []
  | .jnull :: rest => "" :: jsArrStrings rest
  | v :: rest => jsToString v :: jsArrStrings rest
end

/-- `safeParseError` of `marketcheck.ts`. `jsonBody` is the outcome of
`response.json()` (`none` when parsing throws); a parseable body yields its
stringified `message` property when it is a truthy object carrying one and
`null` otherwise, while a parse failure yields `statusText || null`. -/
def safeParseError (jsonBody : Option JsValue) (statusText : String) : Option String :=
  match jsonBody with
  | some body =>
      if typeofIsObject body && jsTruthy body && jsHasKey "message" body then
        some (jsToString (jsGetKey "message" body))
      else none
  | none => if statusText = "" then none else some statusText

/-- The generic fallback error message of `searchVehicles`. -/
def fallbackMessage : String := "Unable to fetch vehicles from Marketcheck."

/-- The observable shape of an HTTP response for the error path: success
flag, status text and the outcome of `response.json()`. -/
structure HttpResponse where
  ok : Bool
  statusText : String
  jsonBody : Option JsValue

/-- The failure outcome of `searchVehicles`: on a non-success response the
thrown error's message is `safeParseError(...) ?? fallbackMessage`;
a success response throws nothing. -/
def searchVehiclesFailure (resp : HttpResponse) : Option String :=
  if resp.ok then none
  else some ((safeParseError resp.jsonBody resp.statusText).getD fallbackMessage)

/-- The `listings` field of the response payload as far as `searchVehicles`
inspects it: absent, present but not an array, or an array of records. -/
inductive ListingsValue where
  | absent
  | nonArray
  | array (xs : List MarketcheckListing)
deriving DecidableEq

/-- `MarketcheckSearchResponse` of `marketcheck.ts`. -/
structure MarketcheckSearchResponse where
  listings : ListingsValue
deriving DecidableEq

/-- `Array.isArray(payload.listings) ? payload.listings : []`. -/
def extractListings : MarketcheckSearchResponse → List MarketcheckListing
  | { listings := .array xs } => xs
  | _ => []

/-- `listings.map(normalizeListing)`, with the potential `cryptoRandomId`
result for the i-th record supplied by `gen i`. -/
def normalizeAll (gen : Nat → String) (xs : List MarketcheckListing) : List VehicleListing :=
  xs.enum.map fun p => normalizeListing p.2 (gen p.1)

/-- The success path of `searchVehicles` after the HTTP call: extract the
listings, normalize each and re-sort locally. -/
def searchSuccess (gen : Nat → String) (payload : MarketcheckSearchResponse)
    (sortBy : SortOption) : List VehicleListing :=
  sortListings (normalizeAll gen (extractListings payload)) sortBy

/-! ### Lemmas about the `URLSearchParams` model -/

theorem getParam_nil (k : String) : getParam [] k = none := rfl

theorem getParam_cons (p : String × String) (ps : List (String × String)) (k : String) :
    getParam (p :: ps) k = if p.1 = k then some p.2 else getParam ps k := by
  by_cases h : p.1 = k
  · simp [getParam, List.find?, h]
  · have hb : (p.1 == k) = false := beq_eq_false_iff_ne.mpr h
    simp [getParam, List.find?, hb, h]

theorem getParam_deleteKey (ps : List (String × String)) (k k2 : String) (h : k ≠ k2) :
    getParam (deleteKey ps k2) k = getParam ps k := by
  induction ps with
  | nil => rfl
  | cons p rest ih =>
      by_cases hp : p.1 = k2
      · have hk : p.1 ≠ k := fun hh => h (hh ▸ hp)
        rw [deleteKey, if_pos hp, ih, getParam_cons, if_neg hk]
      · rw [deleteKey, if_neg hp, getParam_cons, getParam_cons, ih]

theorem getParam_set_self (ps : List (String × String)) (k v : String) :
    getParam (setParam ps k v) k = some v := by
  induction ps with
  | nil => simp [setParam, getParam_cons]
  | cons p rest ih =>
      by_cases hp : p.1 = k
      · rw [setParam, if_pos hp, getParam_cons]; simp
      · rw [setParam, if_neg hp, getParam_cons, if_neg hp, ih]

theorem getParam_set_other (ps : List (String × String)) (k k2 v : String) (h : k ≠ k2) :
    getParam (setParam ps k2 v) k = getParam ps k := by
  induction ps with
  | nil =>
      rw [setParam, getParam_cons, if_neg (fun hh => h hh.symm)]
  | cons p rest ih =>
      by_cases hp : p.1 = k2
      · have hk : p.1 ≠ k := fun hh => h (hh ▸ hp)
        rw [setParam, if_pos hp, getParam_cons, if_neg (fun hh => h hh.symm),
          getParam_deleteKey rest k k2 h, getParam_cons, if_neg hk]
      · rw [setParam, if_neg hp, getParam_cons, getParam_cons, ih]

theorem getParam_condSet (ps : List (String × String)) (P : Prop) [Decidable P]
    (k k2 v : String) (h : k ≠ k2) :
    getParam (if P then setParam ps k2 v else ps) k = getParam ps k := by
  split
  · exact getParam_set_other ps k k2 v h
  · rfl

theorem getParam_setSortOrderParam (ps : List (String × String)) (o : Option SortDirection)
    (k : String) (h : k ≠ "sort_order") :
    getParam (setSortOrderParam ps o) k = getParam ps k := by
  cases o
  · rfl
  · simpa [setSortOrderParam] using getParam_set_other ps k "sort_order" _ h

/-! ### Lemmas about the comparator relation -/

theorem compareWithMissing_trans (d : SortDirection) (a b c : Option Int)
    (h1 : compareWithMissing a b d ≤ 0) (h2 : compareWithMissing b c d ≤ 0) :
    compareWithMissing a c d ≤ 0 := by
  cases a <;> cases b <;> cases c <;> cases d <;>
    simp_all [compareWithMissing] <;> omega

theorem compareWithMissing_total (d : SortDirection) (a b : Option Int) :
    compareWithMissing a b d ≤ 0 ∨ compareWithMissing b a d ≤ 0 := by
  cases a <;> cases b <;> cases d <;> simp [compareWithMissing] <;> omega

theorem sortLE_trans (s : SortOption) (a b c : VehicleListing)
    (h1 : sortLE s a b) (h2 : sortLE s b c) : sortLE s a c := by
  cases s <;> exact compareWithMissing_trans _ _ _ _ h1 h2

theorem sortLE_total (s : SortOption) (a b : VehicleListing) : sortLE s a b ∨ sortLE s b a := by
  cases s <;> exact compareWithMissing_total _ _ _

theorem sortListings_perm (l : List VehicleListing) (s : SortOption) :
    (sortListings l s).Perm l :=
  List.perm_insertionSort (sortLE s) l

theorem sortListings_sorted (l : List VehicleListing) (s : SortOption) :
    (sortListings l s).Sorted (sortLE s) := by
  haveI : IsTotal VehicleListing (sortLE s) := ⟨sortLE_total s⟩
  haveI : IsTrans VehicleListing (sortLE s) := ⟨fun a b c => sortLE_trans s a b c⟩
  exact List.sorted_insertionSort (sortLE s) l

/-! ### Concrete values used by the claim theorems -/

/-- A canonical listing that differs from the defaults only in its price. -/
def priceOnly (p : Option Int) : VehicleListing :=
  { id := "", title := "", price := p }

/-- A concrete resolved location. -/
def testLoc : SelectedLocation :=
  { description := "Philadelphia, PA", city := "Philadelphia", state := "PA",
    lat := 40, lng := -75 }

/-- A concrete configuration with the default base URL and page size. -/
def testConfig : AppConfig := { marketcheckApiKey := "test-key" }

/-- Criteria supplying only a minimum mileage of 20000. -/
def minMilesOnlyCriteria : SearchCriteria :=
  { location := testLoc, radius := 50, minMiles := some 20000, sortBy := .priceAsc }

/-- Criteria supplying a minimum mileage bound of 0 and no maximum. -/
def zeroMinMilesCriteria : SearchCriteria :=
  { location := testLoc, radius := 50, minMiles := some 0, sortBy := .priceAsc }

/-- Criteria whose make filter is a whitespace-only string. -/
def wsMakeCriteria : SearchCriteria :=
  { location := testLoc, radius := 50, make := some " ", sortBy := .priceAsc }

/-- The build object `{year: 2020, make: "Honda", model: "Civic"}`. -/
def civicBuild : BuildInfo :=
  { year := some 2020, make := some "Honda", model := some "Civic" }

/-! ### Claim C1 -/

/-- Claim C1, counterexample: under the descending sort option `priceDesc`
a listing missing its price sorts strictly BEFORE a listing with a price,
so the claim that a missing field sorts strictly after a present one
regardless of direction is false on the code. -/
theorem c1_counterexample :
    sortListings [priceOnly none, priceOnly (some 10000)] .priceDesc
        = [priceOnly none, priceOnly (some 10000)] ∧
    sortListings [priceOnly none, priceOnly (some 10000)] .priceDesc
        ≠ [priceOnly (some 10000), priceOnly none] := by
  constructor <;> decide

/-- Claim C1 (amended): `sortListings` returns a permutation of its input
ordered by the comparator for the sort option; the comparator makes a
missing value sort strictly after a present one when the direction is
ascending and strictly BEFORE it when the direction is descending; two
missing values compare equal and two present values compare numerically in
the requested direction; sorting prices [30000, missing, 10000] ascending
by price yields [10000, 30000, missing]. -/
theorem c1_amended :
    (∀ (l : List VehicleListing) (s : SortOption), (sortListings l s).Perm l) ∧
    (∀ (l : List VehicleListing) (s : SortOption), (sortListings l s).Sorted (sortLE s)) ∧
    (∀ d : SortDirection, compareWithMissing none none d = 0) ∧
    (∀ v : Int, compareWithMissing none (some v) .asc = 1 ∧
      compareWithMissing (some v) none .asc = -1 ∧
      compareWithMissing none (some v) .desc = -1 ∧
      compareWithMissing (some v) none .desc = 1) ∧
    (∀ a b : Int, compareWithMissing (some a) (some b) .asc = a - b ∧
      compareWithMissing (some a) (some b) .desc = b - a) ∧
    sortListings [priceOnly (some 30000), priceOnly none, priceOnly (some 10000)] .priceAsc
      = [priceOnly (some 10000), priceOnly (some 30000), priceOnly none] := by
  exact ⟨fun l s => sortListings_perm l s, fun l s => sortListings_sorted l s,
    fun d => rfl, fun v => ⟨rfl, rfl, rfl, rfl⟩, fun a b => ⟨rfl, rfl⟩, by decide⟩

/-! ### Claim C2 -/

/-- Claim C2, counterexample: criteria supplying the bound `minMiles = 0`
(and no other range bound) produce NO `miles_range` parameter, because the
range guards test JavaScript truthiness rather than presence; the claimed
"present iff at least one bound was supplied" is false on the code. -/
theorem c2_counterexample :
    zeroMinMilesCriteria.minMiles = some 0 ∧
    zeroMinMilesCriteria.maxMiles = none ∧
    getParam (buildQuery testConfig zeroMinMilesCriteria) "miles_range" = none := by
  refine ⟨rfl, rfl, by decide⟩

/-- Claim C2 (amended): each range parameter is present iff at least one of
the corresponding bounds is supplied with a truthy (nonzero) value; when
present, a missing bound is filled with the fixed domain default (year
2000-2030, miles 0-1000, price 0-100000); criteria with only
`minMiles = 20000` yield the miles range value "20000-1000". -/
theorem c2_amended (cfg : AppConfig) (c : SearchCriteria) :
    getParam (buildQuery cfg c) "year_range" =
      (if truthyNum c.minYear || truthyNum c.maxYear then
        some (numStrOr c.minYear "2000" ++ "-" ++ numStrOr c.maxYear "2030")
      else none) ∧
    getParam (buildQuery cfg c) "miles_range" =
      (if truthyNum c.minMiles || truthyNum c.maxMiles then
        some (numStrOr c.minMiles "0" ++ "-" ++ numStrOr c.maxMiles "1000")
      else none) ∧
    getParam (buildQuery cfg c) "price_range" =
      (if truthyNum c.minPrice || truthyNum c.maxPrice then
        some (numStrOr c.minPrice "0" ++ "-" ++ numStrOr c.maxPrice "100000")
      else none) ∧
    getParam (buildQuery testConfig minMilesOnlyCriteria) "miles_range" = some "20000-1000" := by
  refine ⟨?_, ?_, ?_, by decide⟩
  · by_cases h : truthyNum c.minYear = true ∨ truthyNum c.maxYear = true <;>
      simp [buildQuery, h, getParam_setSortOrderParam, getParam_set_other,
        getParam_condSet, getParam_set_self, getParam_nil]
  · by_cases h : truthyNum c.minMiles = true ∨ truthyNum c.maxMiles = true <;>
      simp [buildQuery, h, getParam_setSortOrderParam, getParam_set_other,
        getParam_condSet, getParam_set_self, getParam_nil]
  · by_cases h : truthyNum c.minPrice = true ∨ truthyNum c.maxPrice = true <;>
      simp [buildQuery, h, getParam_setSortOrderParam, getParam_set_other,
        getParam_condSet, getParam_set_self, getParam_nil]

/-! ### Claim C3 -/

/-- Claim C3, counterexample: a record whose heading is the empty string
(present, but empty after trimming) normalizes to the literal
"Used Vehicle" rather than the claimed build concatenation, and a record
whose heading is whitespace-only keeps it verbatim instead of falling back:
the heading is never trimmed before being used. -/
theorem c3_counterexample :
    (normalizeListing { heading := some "", build := some civicBuild } "rid").title
      = "Used Vehicle" ∧
    (normalizeListing { heading := some "", build := some civicBuild } "rid").title
      ≠ "2020 Honda Civic" ∧
    (normalizeListing { heading := some "  ", build := some civicBuild } "rid").title
      = "  " := by
  refine ⟨by decide, by decide, by decide⟩

/-- Claim C3 (amended): the normalized title is the upstream heading
whenever the heading is present and non-empty as given (no trimming is
applied, so a whitespace-only heading is kept verbatim); when the heading
is absent it is the space-joined concatenation of the present-and-truthy
build fields, or "Used Vehicle" when that concatenation is empty; when the
heading is present but equal to the empty string the title is
"Used Vehicle" directly. A record with no heading and build
{year: 2020, make: "Honda", model: "Civic"} yields "2020 Honda Civic" and
a record with no heading and no build fields yields "Used Vehicle". -/
theorem c3_amended (l : MarketcheckListing) (rid : String) :
    (∀ h, l.heading = some h → h ≠ "" → (normalizeListing l rid).title = h) ∧
    (l.heading = some "" → (normalizeListing l rid).title = "Used Vehicle") ∧
    (l.heading = none →
      (normalizeListing l rid).title =
        (if jsTrim (String.intercalate " " (buildTitleParts (l.build.getD {}))) = ""
         then "Used Vehicle"
         else jsTrim (String.intercalate " " (buildTitleParts (l.build.getD {}))))) ∧
    (normalizeListing { build := some civicBuild } "rid").title = "2020 Honda Civic" ∧
    (normalizeListing {} "rid").title = "Used Vehicle" := by
  refine ⟨?_, ?_, ?_, by decide, by decide⟩
  · intro h hh hne
    simp [normalizeListing, computedTitle, hh, hne]
  · intro hh
    simp [normalizeListing, computedTitle, hh]
  · intro hh
    simp [normalizeListing, computedTitle, hh]

/-- Witness for the amended claim C3 at a concrete record with a non-empty
heading. -/
theorem c3_witness :
    (normalizeListing { heading := some "2019 Toyota Camry LE" } "x").title
      = "2019 Toyota Camry LE" := by
  exact (c3_amended { heading := some "2019 Toyota Camry LE" } "x").1
    "2019 Toyota Camry LE" rfl (by decide)

/-! ### Claim C4 -/

/-- Claim C4, counterexample: a non-success response whose body is
JSON-parseable but carries no `message` field (here the empty object) is
reported with the generic fallback message, not with the HTTP status text
as the claim requires. -/
theorem c4_counterexample :
    searchVehiclesFailure
        { ok := false, statusText := "Bad Request", jsonBody := some (.jobj []) }
      = some fallbackMessage ∧
    searchVehiclesFailure
        { ok := false, statusText := "Bad Request", jsonBody := some (.jobj []) }
      ≠ some "Bad Request" := by
  refine ⟨rfl, by decide⟩

/-- Claim C4 (amended): on a non-success response the failure message is
the stringified `message` property when the body parses to a truthy object
carrying one; the HTTP status text only when the body is NOT
JSON-parseable (and the status text is non-empty); and the generic
fallback in every other case, including a parseable body without a
`message`. -/
theorem c4_amended (resp : HttpResponse) (hok : resp.ok = false) :
    (resp.jsonBody = none →
      searchVehiclesFailure resp =
        some (if resp.statusText = "" then fallbackMessage else resp.statusText)) ∧
    (∀ body, resp.jsonBody = some body →
      (typeofIsObject body && jsTruthy body && jsHasKey "message" body) = true →
      searchVehiclesFailure resp = some (jsToString (jsGetKey "message" body))) ∧
    (∀ body, resp.jsonBody = some body →
      (typeofIsObject body && jsTruthy body && jsHasKey "message" body) = false →
      searchVehiclesFailure resp = some fallbackMessage) := by
  refine ⟨?_, ?_, ?_⟩
  · intro hb
    by_cases hs : resp.statusText = "" <;>
      simp [searchVehiclesFailure, safeParseError, hok, hb, hs]
  · intro body hb hmsg
    simp [searchVehiclesFailure, safeParseError, hok, hb, hmsg]
  · intro body hb hmsg
    simp [searchVehiclesFailure, safeParseError, hok, hb, hmsg]

/-- Witness for the amended claim C4 at a concrete unparseable-body
response with a non-empty status text. -/
theorem c4_witness :
    searchVehiclesFailure { ok := false, statusText := "Gone", jsonBody := none }
      = some "Gone" := by
  have h := (c4_amended { ok := false, statusText := "Gone", jsonBody := none } rfl).1 rfl
  simpa using h

/-! ### Claim C5 -/

/-- Claim C5: for each of the four sort options the built query sets
exactly the remote (field, direction) pair of the fixed table: priceAsc to
(price, asc), priceDesc to (price, desc), distance to (distance, asc) and
mileageAsc to (miles, asc). -/
theorem c5_sort_mapping (cfg : AppConfig) (c : SearchCriteria) :
    getParam (buildQuery cfg c) "sort_by" = some (SORT_MAPPING c.sortBy).sortBy ∧
    getParam (buildQuery cfg c) "sort_order" =
      (SORT_MAPPING c.sortBy).sortOrder.map sortDirectionParam ∧
    SORT_MAPPING .priceAsc = { sortBy := "price", sortOrder := some .asc } ∧
    SORT_MAPPING .priceDesc = { sortBy := "price", sortOrder := some .desc } ∧
    SORT_MAPPING .distance = { sortBy := "distance", sortOrder := some .asc } ∧
    SORT_MAPPING .mileageAsc = { sortBy := "miles", sortOrder := some .asc } := by
  refine ⟨?_, ?_, rfl, rfl, rfl, rfl⟩ <;>
    cases hc : c.sortBy <;>
    simp [buildQuery, hc, SORT_MAPPING, setSortOrderParam, getParam_set_other,
      getParam_set_self]

/-! ### Claim C6 -/

/-- Claim C6, counterexample: a whitespace-only make (empty after trimming,
so the claim requires it to be omitted) is truthy in JavaScript and is
included in the query verbatim: no trimming happens before the test. -/
theorem c6_counterexample :
    wsMakeCriteria.make = some " " ∧
    jsTrim " " = "" ∧
    getParam (buildQuery testConfig wsMakeCriteria) "make" = some " " := by
  refine ⟨rfl, by decide, by decide⟩

/-- Claim C6 (amended): each optional scalar filter (make, model, exterior
color) appears in the built query iff the corresponding criteria string is
present and non-empty AS GIVEN (no trimming is applied); when included it
carries the raw string. -/
theorem c6_amended (cfg : AppConfig) (c : SearchCriteria) :
    getParam (buildQuery cfg c) "make" =
      (match c.make with
       | some s => if s = "" then none else some s
       | none => none) ∧
    getParam (buildQuery cfg c) "model" =
      (match c.model with
       | some s => if s = "" then none else some s
       | none => none) ∧
    getParam (buildQuery cfg c) "exterior_color" =
      (match c.color with
       | some s => if s = "" then none else some s
       | none => none) := by
  refine ⟨?_, ?_, ?_⟩
  · rcases hm : c.make with _ | s
    · simp [buildQuery, hm, truthyStr, getParam_setSortOrderParam, getParam_set_other,
        getParam_condSet, getParam_set_self, getParam_nil]
    · by_cases hs : s = "" <;>
        simp [buildQuery, hm, hs, truthyStr, getParam_setSortOrderParam,
          getParam_set_other, getParam_condSet, getParam_set_self, getParam_nil]
  · rcases hm : c.model with _ | s
    · simp [buildQuery, hm, truthyStr, getParam_setSortOrderParam, getParam_set_other,
        getParam_condSet, getParam_set_self, getParam_nil]
    · by_cases hs : s = "" <;>
        simp [buildQuery, hm, hs, truthyStr, getParam_setSortOrderParam,
          getParam_set_other, getParam_condSet, getParam_set_self, getParam_nil]
  · rcases hm : c.color with _ | s
    · simp [buildQuery, hm, truthyStr, getParam_setSortOrderParam, getParam_set_other,
        getParam_condSet, getParam_set_self, getParam_nil]
    · by_cases hs : s = "" <;>
        simp [buildQuery, hm, hs, truthyStr, getParam_setSortOrderParam,
          getParam_set_other, getParam_condSet, getParam_set_self, getParam_nil]

/-! ### Claim C7 -/

/-- Claim C7: for every criteria and configuration the built query always
sets the API key, the latitude and longitude from the criteria's location,
the radius, the constant used-vehicle-type filter, a zero start offset and
a rows count equal to the configured page size clamped to [1, 50]; with
the default page size of 24 the rows value is "24". -/
theorem c7_always_params (cfg : AppConfig) (c : SearchCriteria) :
    getParam (buildQuery cfg c) "api_key" = some cfg.marketcheckApiKey ∧
    getParam (buildQuery cfg c) "latitude" = some (toString c.location.lat) ∧
    getParam (buildQuery cfg c) "longitude" = some (toString c.location.lng) ∧
    getParam (buildQuery cfg c) "radius" = some (toString c.radius) ∧
    getParam (buildQuery cfg c) "car_type" = some "used" ∧
    getParam (buildQuery cfg c) "start" = some "0" ∧
    getParam (buildQuery cfg c) "rows" =
      some (toString (max 1 (min cfg.resultsPerPage 50))) ∧
    getParam (buildQuery { cfg with resultsPerPage := defaultResultsPerPage } c) "rows"
      = some "24" := by
  refine ⟨?_, ?_, ?_, ?_, ?_, ?_, ?_, ?_⟩ <;>
    simp [buildQuery, defaultResultsPerPage, getParam_setSortOrderParam,
      getParam_set_other, getParam_condSet, getParam_set_self] <;>
    decide

/-! ### Claim C8 -/

/-- Claim C8: a response payload whose `listings` field is absent, or
present but not an array, is treated as zero results: the search returns
the empty listing sequence instead of raising an error. -/
theorem c8_listings_tolerance (gen : Nat → String) (s : SortOption) :
    searchSuccess gen { listings := .absent } s = [] ∧
    searchSuccess gen { listings := .nonArray } s = [] := by
  constructor <;> rfl

/-! ### Claim C9 -/

/-- Claim C9: two runs of `normalizeListing` on the same raw record, with
any two outputs of the random id generator, agree on every field except
possibly `id`, and agree on `id` too whenever the record carries an
upstream id or vin: id generation is the only non-deterministic element. -/
theorem c9_determinism (l : MarketcheckListing) (r1 r2 : String) :
    { normalizeListing l r1 with id := "" } = { normalizeListing l r2 with id := "" } ∧
    ((l.id).isSome = true ∨ (l.vin).isSome = true →
      (normalizeListing l r1).id = (normalizeListing l r2).id) := by
  constructor
  · rfl
  · intro h
    rcases hi : l.id with _ | s
    · rcases hv : l.vin with _ | v
      · simp [hi, hv] at h
      · simp [normalizeListing, hi, hv]
    · simp [normalizeListing, hi]

/-- Witness for claim C9 at a concrete record carrying a vin, with two
distinct generator outputs. -/
theorem c9_witness :
    (normalizeListing { vin := some "1HGBH41JXMN109186" } "a").id
      = (normalizeListing { vin := some "1HGBH41JXMN109186" } "b").id := by
  exact (c9_determinism { vin := some "1HGBH41JXMN109186" } "a" "b").2 (Or.inr rfl)

/-! ### Claim C10 -/

/-- Claim C10: whenever the raw record's `id` field is present,
`normalizeListing` returns exactly that string as the canonical id, even
when it is the empty string; when `id` is absent but `vin` is present the
canonical id is the vin, and the supplied random token becomes the id only
in the remaining case, when both `id` and `vin` are absent — the three
cases are exhaustive, so the token is used ONLY when both are absent. -/
theorem c10_id_passthrough (l : MarketcheckListing) (rid : String) :
    (∀ s, l.id = some s → (normalizeListing l rid).id = s) ∧
    (∀ v, l.id = none → l.vin = some v → (normalizeListing l rid).id = v) ∧
    (l.id = none → l.vin = none → (normalizeListing l rid).id = rid) ∧
    (normalizeListing { id := some "" } rid).id = "" := by
  refine ⟨?_, ?_, ?_, rfl⟩
  · intro s hs
    simp [normalizeListing, hs]
  · intro v h1 h2
    simp [normalizeListing, h1, h2]
  · intro h1 h2
    simp [normalizeListing, h1, h2]

/-- Witness for claim C10 at a concrete record whose upstream id is the
empty string, and at a concrete record with no id but a vin, whose
canonical id is the vin rather than the supplied token. -/
theorem c10_witness :
    (normalizeListing { id := some "" } "tok").id = "" ∧
    (normalizeListing { vin := some "5YJ3E1EA7KF317000" } "tok").id
      = "5YJ3E1EA7KF317000" := by
  exact ⟨(c10_id_passthrough { id := some "" } "tok").1 "" rfl,
    (c10_id_passthrough { vin := some "5YJ3E1EA7KF317000" } "tok").2.1
      "5YJ3E1EA7KF317000" rfl rfl⟩
